import Mathlib

/-!
Verification of the grade-aggregation and validation engine of the
"Evaluador de Notas Pro" gradebook application.

The numeric domain of the TypeScript source (JS `number`) is modelled by `ℚ`,
so the algebraic identities the specification states hold exactly.
Every definition mirrors a function of the source; the file references the
source locations in the doc comments.
-/

namespace Gradebook

attribute [local semireducible] Rat.mul Rat.inv Rat.add Rat.sub Rat.ofScientific

/-- Code-point lexicographic comparison on character lists; used to model the
JS `localeCompare`-based comparators (a locale-independent total order). -/
def strLe : List Char → List Char → Bool
  | [], _ => true
  | _ :: _, [] => false
  | a :: as, b :: bs =>
    if a.toNat < b.toNat then true
    else if b.toNat < a.toNat then false
    else strLe as bs

/-- String comparison used by the `sort((a,b) => a.name.localeCompare(b.name))`
calls of the source, modelled as code-point lexicographic order. -/
def nameLe (a b : String) : Bool := strLe a.data b.data

/-- The TS type `corte: 1 | 2 | 3` (types.ts): one of the three grading
periods of a subject. -/
inductive Corte
  | c1
  | c2
  | c3
deriving DecidableEq, Repr

/-- Numeric value of a corte (`1 | 2 | 3`), used by the CSV export comparator
`a.corte - b.corte`. -/
def corteIdx : Corte → Nat
  | .c1 => 1
  | .c2 => 2
  | .c3 => 3

/-- TS type `Student` (types.ts): id (cédula), name, email. -/
structure Student where
  id : String
  name : String
  email : String
deriving DecidableEq, Repr

/-- TS type `Evaluation` (types.ts): id, owning subject, corte, name and
percentage weight (stored as 0-100). -/
structure Evaluation where
  id : String
  subjectId : String
  corte : Corte
  name : String
  percentage : ℚ
deriving DecidableEq, Repr

/-- TS type `Grade` (types.ts): composite key (studentId, evaluationId) with
`score: number | null` in 0-20. -/
structure Grade where
  studentId : String
  evaluationId : String
  score : Option ℚ
deriving DecidableEq, Repr

/-- Ordering of evaluations by name, as in
`evals.sort((a,b) => a.name.localeCompare(b.name))`. -/
def byName (a b : Evaluation) : Prop := nameLe a.name b.name = true

instance : DecidableRel byName := fun a b => inferInstanceAs (Decidable (nameLe a.name b.name = true))

/-- `getGrade` (GradeTable.tsx:21-23, SubjectView.tsx:128-130,
ReportsView.tsx:45-47): first grade of the list matching the
(studentId, evaluationId) pair, via `grades.find(...)`. -/
def getGrade (grades : List Grade) (studentId evaluationId : String) : Option Grade :=
  grades.find? (fun g => g.studentId == studentId && g.evaluationId == evaluationId)

/-- The score used by every aggregation: `grade?.score ?? 0` — an absent grade
row or a `null` score contributes `0`. -/
def scoreOf (grades : List Grade) (studentId evaluationId : String) : ℚ :=
  match getGrade grades studentId evaluationId with
  | some g => g.score.getD 0
  | none => 0

/-- The optional score as displayed: `grade?.score` — `none` both when the
grade row is absent and when its score is `null`. -/
def scoreOpt (grades : List Grade) (studentId evaluationId : String) : Option ℚ :=
  (getGrade grades studentId evaluationId).bind (·.score)

/-- `evaluationsByCorte` (GradeTable.tsx:12-19, SubjectView.tsx:121-126):
the corte's evaluations, sorted by name.  JS `Array.sort` with a comparator is
a stable sort; modelled by `List.insertionSort`, which is stable. -/
def evaluationsByCorte (evaluations : List Evaluation) (corte : Corte) : List Evaluation :=
  List.insertionSort byName (evaluations.filter (fun ev => ev.corte == corte))

/-- `calculateCorteTotal` (GradeTable.tsx:25-33); identical body to
`calculateWeightedCorteSum` of the earlier GradeTable variant (part_000:27-35):
the weighted sum `score * (percentage / 100)` over the corte's evaluations,
`0` for a corte without evaluations. -/
def calculateCorteTotal (evaluations : List Evaluation) (grades : List Grade)
    (studentId : String) (corte : Corte) : ℚ :=
  let corteEvals := evaluationsByCorte evaluations corte
  if corteEvals.isEmpty then 0
  else corteEvals.foldl (fun total ev => total + scoreOf grades studentId ev.id * (ev.percentage / 100)) 0

/-- `calculateWeightedCorteSum` (part_000:27-35): textually the same reduce as
`calculateCorteTotal` of GradeTable.tsx. -/
def calculateWeightedCorteSum (evaluations : List Evaluation) (grades : List Grade)
    (studentId : String) (corte : Corte) : ℚ :=
  calculateCorteTotal evaluations grades studentId corte

/-- The grade table's final grade (GradeTable.tsx:72-75): the sum of the three
per-corte totals. -/
def finalGrade (evaluations : List Evaluation) (grades : List Grade) (studentId : String) : ℚ :=
  calculateCorteTotal evaluations grades studentId Corte.c1
    + calculateCorteTotal evaluations grades studentId Corte.c2
    + calculateCorteTotal evaluations grades studentId Corte.c3

/-- `calculateNormalizedCorteGrade` (part_000:37-48): weighted sum rescaled to
the 0-20 scale by the corte's total percentage, `0` for an empty corte or a
zero percentage total. -/
def calculateNormalizedCorteGrade (evaluations : List Evaluation) (grades : List Grade)
    (studentId : String) (corte : Corte) : ℚ :=
  let corteEvals := evaluationsByCorte evaluations corte
  if corteEvals.isEmpty then 0
  else
    let weightedSum := calculateWeightedCorteSum evaluations grades studentId corte
    let totalPercentageInCorte := corteEvals.foldl (fun total ev => total + ev.percentage) 0
    if totalPercentageInCorte = 0 then 0
    else weightedSum / (totalPercentageInCorte / 100)

/-- The per-student normalized corte grade of `handleEmailByCorte`
(SubjectView.tsx:158-166).  The surrounding handler exits early (alert) when
the corte has no evaluations. -/
def emailCorteNormalizedGrade (evaluations : List Evaluation) (grades : List Grade)
    (studentId : String) (corte : Corte) : ℚ :=
  let corteEvals := evaluationsByCorte evaluations corte
  let weightedSum := corteEvals.foldl (fun total ev => total + scoreOf grades studentId ev.id * (ev.percentage / 100)) 0
  let totalPercentageInCorte := corteEvals.foldl (fun total ev => total + ev.percentage) 0
  if 0 < totalPercentageInCorte then weightedSum / (totalPercentageInCorte / 100) else 0

/-- The general report's final grade (ReportsView.tsx:90-93): one reduce of
`score * (percentage / 100)` over all evaluations. -/
def reportFinalGrade (evaluations : List Evaluation) (grades : List Grade) (studentId : String) : ℚ :=
  evaluations.foldl (fun total ev => total + scoreOf grades studentId ev.id * (ev.percentage / 100)) 0

/-- The per-student normalized corte score of the report view
(ReportsView.tsx:101-110); the student is only pushed when the corte has
evaluations. -/
def reportNormalizedScore (evaluations : List Evaluation) (grades : List Grade)
    (studentId : String) (corte : Corte) : ℚ :=
  let corteEvals := evaluations.filter (fun ev => ev.corte == corte)
  let corteTotal := corteEvals.foldl (fun total ev => total + scoreOf grades studentId ev.id * (ev.percentage / 100)) 0
  let totalPct := corteEvals.foldl (fun p ev => p + ev.percentage) 0
  if 0 < totalPct then corteTotal / (totalPct / 100) else 0

/-- The CSV export comparator (ReportsView.tsx:182):
`a.corte - b.corte || a.name.localeCompare(b.name)`. -/
def csvLeB (a b : Evaluation) : Bool :=
  if corteIdx a.corte < corteIdx b.corte then true
  else if corteIdx b.corte < corteIdx a.corte then false
  else nameLe a.name b.name

/-- Ordering relation for the CSV export sort. -/
def csvLe (a b : Evaluation) : Prop := csvLeB a b = true

instance : DecidableRel csvLe := fun a b => inferInstanceAs (Decidable (csvLeB a b = true))

/-- The CSV export's evaluation list sorted by corte then name
(ReportsView.tsx:182). -/
def csvSortedEvaluations (evaluations : List Evaluation) : List Evaluation :=
  List.insertionSort csvLe evaluations

/-- The CSV export's `corteEvals[i]` (ReportsView.tsx:181-182): the sorted
evaluations distributed per corte. -/
def csvCorteEvals (evaluations : List Evaluation) (corte : Corte) : List Evaluation :=
  (csvSortedEvaluations evaluations).filter (fun ev => ev.corte == corte)

/-- The CSV export's per-corte accumulator `corteTotal`
(ReportsView.tsx:198-204). -/
def csvCorteTotal (evaluations : List Evaluation) (grades : List Grade)
    (studentId : String) (corte : Corte) : ℚ :=
  (csvCorteEvals evaluations corte).foldl
    (fun total ev => total + scoreOf grades studentId ev.id * (ev.percentage / 100)) 0

/-- The CSV export's `finalGrade` accumulation (ReportsView.tsx:195-208): the
corte total is added only for cortes that have evaluations. -/
def csvFinalGrade (evaluations : List Evaluation) (grades : List Grade) (studentId : String) : ℚ :=
  [Corte.c1, Corte.c2, Corte.c3].foldl
    (fun fg corte =>
      if (csvCorteEvals evaluations corte).isEmpty then fg
      else fg + csvCorteTotal evaluations grades studentId corte) 0

/-- Digits after the decimal point of `num/den` (with `num < den`), produced
greedily; the fuel bounds the expansion (JS numbers are binary floats, whose
exact decimal expansions terminate). -/
def fracDigits : Nat → Nat → Nat → String
  | 0, _, _ => ""
  | fuel + 1, num, den =>
    if num = 0 then ""
    else
      let num10 := num * 10
      toString (num10 / den) ++ fracDigits fuel (num10 % den) den

/-- Decimal rendering of a nonnegative rational, modelling the JS
number-to-string conversion used by template interpolation. -/
def decStringNonneg (q : ℚ) : String :=
  let ip := (Rat.floor q).toNat
  let frac := q - Rat.floor q
  if frac = 0 then toString ip
  else toString ip ++ "." ++ fracDigits 20 frac.num.toNat frac.den

/-- Decimal rendering of a rational, modelling JS `` `${x}` ``. -/
def decString (q : ℚ) : String :=
  if q < 0 then "-" ++ decStringNonneg (-q) else decStringNonneg q

/-- JS `Math.round`-style rounding to an integer: nearest, ties toward
positive infinity — the tie-breaking `toFixed` specifies ("pick the larger"). -/
def jsRound (q : ℚ) : ℤ := Rat.floor (q + 1 / 2)

/-- JS `x.toFixed(2)` as a string: two-decimal fixed-point rendering. -/
def toFixed2Str (q : ℚ) : String :=
  let n := jsRound (q * 100)
  let sign := if n < 0 then "-" else ""
  let a := n.natAbs
  sign ++ toString (a / 100) ++ "." ++ (if a % 100 < 10 then "0" else "") ++ toString (a % 100)

/-- JS `parseFloat(x.toFixed(2))` as a number: the value rounded to two
decimals (used by `calculateStats`, ReportsView.tsx:75-80). -/
def toFixed2Rat (q : ℚ) : ℚ := (jsRound (q * 100) : ℚ) / 100

/-- The per-student score text of `handleEmailByEvaluation`
(SubjectView.tsx:138-140): `grade?.score ?? 'N/P'` interpolated into the body. -/
def emailScoreCell (score : Option ℚ) : String :=
  match score with
  | none => "N/P"
  | some q => decString q

/-- One student line of the email-by-evaluation body (SubjectView.tsx:140):
`` `${student.name}: ${score}\n` ``. -/
def emailLine (name : String) (score : Option ℚ) : String :=
  name ++ ": " ++ emailScoreCell score ++ "\n"

/-- Ordering of students by name, as in
`students.sort((a,b) => a.name.localeCompare(b.name))`. -/
def studentByName (a b : Student) : Prop := nameLe a.name b.name = true

instance : DecidableRel studentByName := fun a b => inferInstanceAs (Decidable (nameLe a.name b.name = true))

/-- The body of `handleEmailByEvaluation` (SubjectView.tsx:132-143). -/
def emailByEvaluationBody (students : List Student) (grades : List Grade)
    (ev : Evaluation) : String :=
  let header := "Hola,\n\nA continuación se presentan las calificaciones para la evaluación \""
    ++ ev.name ++ "\" (" ++ decString ev.percentage ++ "%):\n\n"
  let body := (List.insertionSort studentByName students).foldl
    (fun b s => b ++ emailLine s.name (scoreOpt grades s.id ev.id)) header
  body ++ "\nSaludos."

/-- The grade table's score-cell display value (GradeTable.tsx:92):
`grade?.score ?? ''` — empty text for a missing score. -/
def gradeCellValue (score : Option ℚ) : String :=
  match score with
  | none => ""
  | some q => decString q

/-- The CSV export's per-evaluation score cell (ReportsView.tsx:200-203):
`const score = grade?.score ?? 0; row.push(score.toFixed(2))`. -/
def csvScoreCell (score : Option ℚ) : String :=
  toFixed2Str (score.getD 0)

/-- One student row of the detailed CSV export (ReportsView.tsx:193-210):
id, quoted name, email, per-evaluation scores and corte totals for non-empty
cortes, and the final grade. -/
def csvStudentRow (evaluations : List Evaluation) (grades : List Grade) (s : Student) : List String :=
  let base := [s.id, "\"" ++ s.name ++ "\"", s.email]
  let withCortes := [Corte.c1, Corte.c2, Corte.c3].foldl
    (fun row corte =>
      let evals := csvCorteEvals evaluations corte
      if evals.isEmpty then row
      else
        row ++ evals.map (fun ev => csvScoreCell (scoreOpt grades s.id ev.id))
          ++ [toFixed2Str (csvCorteTotal evaluations grades s.id corte)]) base
  withCortes ++ [toFixed2Str (csvFinalGrade evaluations grades s.id)]

/-- A (label, score) pair as fed to `calculateStats` (ReportsView.tsx). -/
structure NamedScore where
  name : String
  score : ℚ
deriving DecidableEq, Repr

/-- The `Stats` record of ReportsView.tsx:17-27. -/
structure Stats where
  average : ℚ
  highest : ℚ
  lowest : ℚ
  passed : Nat
  failed : Nat
  passRate : ℚ
  distribution : List Nat
  approvedStudents : List NamedScore
  failedStudents : List NamedScore
deriving DecidableEq, Repr

/-- The distribution bucket chosen by the if-chain of ReportsView.tsx:63-68. -/
def bucketIndex (score : ℚ) : Fin 5 :=
  if score < 4 then 0
  else if score < 8 then 1
  else if score < 12 then 2
  else if score < 16 then 3
  else 4

/-- One `distribution[...]++` step of the loop at ReportsView.tsx:63-69. -/
def addBucket (d : Fin 5 → Nat) (score : ℚ) : Fin 5 → Nat :=
  fun i => if i = bucketIndex score then d i + 1 else d i

/-- Bucket counts after processing every score (ReportsView.tsx:62-69). -/
def distributionOf (scores : List ℚ) : Fin 5 → Nat :=
  scores.foldl addBucket (fun _ => 0)

/-- The `distribution` array `[0,0,0,0,0]` after the counting loop
(ReportsView.tsx:62-69). -/
def distributionList (scores : List ℚ) : List Nat :=
  [distributionOf scores 0, distributionOf scores 1, distributionOf scores 2,
    distributionOf scores 3, distributionOf scores 4]

/-- `Math.max(...scores)` for a nonempty list (ReportsView.tsx:56). -/
def maxD : List ℚ → ℚ
  | [] => 0
  | x :: xs => xs.foldl max x

/-- `Math.min(...scores)` for a nonempty list (ReportsView.tsx:57). -/
def minD : List ℚ → ℚ
  | [] => 0
  | x :: xs => xs.foldl min x

/-- Descending order by score: the comparator `(a,b) => b.score - a.score`
(ReportsView.tsx:71-72). -/
def byScoreDesc (a b : NamedScore) : Prop := b.score ≤ a.score

instance : DecidableRel byScoreDesc := fun a b => inferInstanceAs (Decidable (b.score ≤ a.score))

/-- `calculateStats` (ReportsView.tsx:49-85).  The empty input returns the
all-zero record of line 51; otherwise average, extremes and pass rate are
rounded to two decimals and the distribution is the five-bucket histogram. -/
def calculateStats (studentScores : List NamedScore) (passingGrade : ℚ) : Stats :=
  if studentScores.isEmpty then
    { average := 0, highest := 0, lowest := 0, passed := 0, failed := 0,
      passRate := 0, distribution := [0, 0, 0, 0, 0],
      approvedStudents := [], failedStudents := [] }
  else
    let scores := studentScores.map (·.score)
    let average := scores.foldl (· + ·) 0 / (scores.length : ℚ)
    let highest := maxD scores
    let lowest := minD scores
    let passed := (scores.filter (fun s => passingGrade ≤ s)).length
    let failed := scores.length - passed
    let passRate := ((passed : ℚ) / (scores.length : ℚ)) * 100
    let approvedStudents := List.insertionSort byScoreDesc (studentScores.filter (fun s => passingGrade ≤ s.score))
    let failedStudents := List.insertionSort byScoreDesc (studentScores.filter (fun s => s.score < passingGrade))
    { average := toFixed2Rat average, highest := toFixed2Rat highest,
      lowest := toFixed2Rat lowest, passed := passed, failed := failed,
      passRate := toFixed2Rat passRate, distribution := distributionList scores,
      approvedStudents := approvedStudents, failedStudents := failedStudents }

/-- The spec's five distribution ranges `[0,4), [4,8), [8,12), [12,16), [16,20]`,
written from the specification's words for comparison with the code's
if-chain. -/
def specBucketRange (i : Fin 5) (s : ℚ) : Prop :=
  match i with
  | 0 => 0 ≤ s ∧ s < 4
  | 1 => 4 ≤ s ∧ s < 8
  | 2 => 8 ≤ s ∧ s < 12
  | 3 => 12 ≤ s ∧ s < 16
  | 4 => 16 ≤ s ∧ s ≤ 20

/-- The spec's formula for `weightedCorteSum` written from its words: the sum
over the corte's evaluations of `score × (percentage / 100)`, missing score
as 0. -/
def weightedCorteSumSpec (evaluations : List Evaluation) (grades : List Grade)
    (studentId : String) (corte : Corte) : ℚ :=
  ((evaluations.filter (fun ev => ev.corte == corte)).map
    (fun ev => scoreOf grades studentId ev.id * (ev.percentage / 100))).sum

/-- The corte's total percentage `P`: the sum of the percentages of the
corte's evaluations. -/
def totalCortePercentage (evaluations : List Evaluation) (corte : Corte) : ℚ :=
  ((evaluations.filter (fun ev => ev.corte == corte)).map (·.percentage)).sum

/-- `CORTE_PERCENTAGES` (SubjectView.tsx:25): the per-corte caps 30/30/40. -/
def CORTE_PERCENTAGES : Corte → ℚ
  | .c1 => 30
  | .c2 => 30
  | .c3 => 40

/-- The validation failures of `handleSaveEvaluation` (SubjectView.tsx:68-101),
each budget error carrying the numeric remaining allowance its message
reports. -/
inductive SaveError
  | missingField
  | invalidPercentage
  | corteBudget (corte : Corte) (available : ℚ)
  | totalBudget (available : ℚ)
deriving DecidableEq, Repr

instance {ε α : Type} [DecidableEq ε] [DecidableEq α] : DecidableEq (Except ε α) := fun x y =>
  match x, y with
  | .ok a, .ok b =>
    if h : a = b then .isTrue (by rw [h]) else .isFalse (by intro hh; cases hh; exact h rfl)
  | .error a, .error b =>
    if h : a = b then .isTrue (by rw [h]) else .isFalse (by intro hh; cases hh; exact h rfl)
  | .ok _, .error _ => .isFalse (by intro hh; cases hh)
  | .error _, .ok _ => .isFalse (by intro hh; cases hh)

/-- The `!newEval.name.trim()` test (SubjectView.tsx:72): the name is blank
when every character is whitespace. -/
def nameMissing (name : String) : Bool :=
  name.data.all (fun c => c.isWhitespace)

/-- `percentageForThisCorte` (SubjectView.tsx:81-88): the corte's existing
percentages, skipping the evaluation being edited by id. -/
def percentageForCorte (subjectEvaluations : List Evaluation)
    (editing : Option Evaluation) (corte : Corte) : ℚ :=
  (subjectEvaluations.filter (fun ev => ev.corte == corte)).foldl
    (fun acc ev =>
      match editing with
      | some e => if e.id == ev.id then acc else acc + ev.percentage
      | none => acc + ev.percentage) 0

/-- `totalPercentage` (SubjectView.tsx:39-41): the sum of all the subject's
evaluation percentages. -/
def totalPercentage (subjectEvaluations : List Evaluation) : ℚ :=
  subjectEvaluations.foldl (fun acc ev => acc + ev.percentage) 0

/-- `currentTotalWithoutEdited` (SubjectView.tsx:97): the total minus the
edited evaluation's prior percentage. -/
def currentTotalWithoutEdited (subjectEvaluations : List Evaluation)
    (editing : Option Evaluation) : ℚ :=
  totalPercentage subjectEvaluations -
    (match editing with
     | some e => e.percentage
     | none => 0)

/-- The validation of `handleSaveEvaluation` (SubjectView.tsx:68-101).  The
form's percentage is `Option ℚ` (`none` models `isNaN(parseFloat(...))`); the
checks run in the source's order and each early return is an error. -/
def validateSaveEvaluation (subjectEvaluations : List Evaluation)
    (editing : Option Evaluation) (name : String) (percentage : Option ℚ)
    (corte : Corte) : Except SaveError Unit :=
  match percentage with
  | none => .error .missingField
  | some p =>
    if nameMissing name then .error .missingField
    else if p ≤ 0 then .error .invalidPercentage
    else
      let pfc := percentageForCorte subjectEvaluations editing corte
      let maxP := CORTE_PERCENTAGES corte
      if maxP < pfc + p then .error (.corteBudget corte (maxP - pfc))
      else
        let ctwe := currentTotalWithoutEdited subjectEvaluations editing
        if (100 : ℚ) < ctwe + p then .error (.totalBudget (100 - ctwe))
        else .ok ()

/-- Modelled from the spec: the update write of the edit flow
(`onUpdateEvaluation` → a `dbUpdateEvaluation`) is not among the source files;
per §4.2 step 7 the caller updates the evaluation in place, keeping its id and
subject. -/
def updateEvaluation (evaluations : List Evaluation) (editedId : String)
    (name : String) (p : ℚ) (corte : Corte) : List Evaluation :=
  evaluations.map (fun ev =>
    if ev.id == editedId then { ev with name := name, percentage := p, corte := corte } else ev)

/-- `handleSaveEvaluation` (SubjectView.tsx:68-119) as a state transition on
the subject's evaluation list: each early return leaves the list unchanged and
reports the error; on success the evaluation is updated (edit flow) or
appended (add flow, `dbAddEvaluation` inserts the new row). -/
def handleSaveEvaluationRun (subjectEvaluations : List Evaluation)
    (editing : Option Evaluation) (name : String) (percentage : Option ℚ)
    (corte : Corte) (subjectId newId : String) : List Evaluation × Option SaveError :=
  match percentage with
  | none => (subjectEvaluations, some .missingField)
  | some p =>
    if nameMissing name then (subjectEvaluations, some .missingField)
    else if p ≤ 0 then (subjectEvaluations, some .invalidPercentage)
    else
      let pfc := percentageForCorte subjectEvaluations editing corte
      let maxP := CORTE_PERCENTAGES corte
      if maxP < pfc + p then (subjectEvaluations, some (.corteBudget corte (maxP - pfc)))
      else
        let ctwe := currentTotalWithoutEdited subjectEvaluations editing
        if (100 : ℚ) < ctwe + p then (subjectEvaluations, some (.totalBudget (100 - ctwe)))
        else
          match editing with
          | some e => (updateEvaluation subjectEvaluations e.id name p corte, none)
          | none => (subjectEvaluations ++ [{ id := newId, subjectId := subjectId, corte := corte, name := name, percentage := p }], none)

/-! Concrete fixtures used by witnesses and counterexamples. -/

/-- The spec's scenario evaluation: corte-1 "Quiz" at 30%. -/
def quiz30 : Evaluation :=
  { id := "e1", subjectId := "sub1", corte := .c1, name := "Quiz", percentage := 30 }

/-- One student scored 15 on `quiz30`. -/
def gradesQuiz15 : List Grade :=
  [{ studentId := "s", evaluationId := "e1", score := some 15 }]

/-- The spec's validator scenario: an existing corte-1 evaluation at 20%. -/
def e20 : Evaluation :=
  { id := "e1", subjectId := "sub1", corte := .c1, name := "Parcial 1", percentage := 20 }

/-- A concrete student. -/
def ana : Student := { id := "a1", name := "Ana", email := "ana@mail.com" }

/-- Snapshot where Ana's score on `quiz30` is `null` (not yet graded). -/
def gradesNull : List Grade :=
  [{ studentId := "a1", evaluationId := "e1", score := none }]

/-- Snapshot identical to `gradesNull` except the score is an explicit 0. -/
def gradesZero : List Grade :=
  [{ studentId := "a1", evaluationId := "e1", score := some 0 }]

/-- A corte-1 evaluation worth the full 100%. -/
def evFull100 : Evaluation :=
  { id := "e1", subjectId := "sub1", corte := .c1, name := "Ev", percentage := 100 }

/-- Duplicate grade rows for the same (student, evaluation) pair. -/
def gradesDup : List Grade :=
  [{ studentId := "s", evaluationId := "e1", score := some 10 },
   { studentId := "s", evaluationId := "e1", score := some 5 }]

/-- `gradesDup` in the opposite order. -/
def gradesDupRev : List Grade :=
  [{ studentId := "s", evaluationId := "e1", score := some 5 },
   { studentId := "s", evaluationId := "e1", score := some 10 }]

/-- A second corte-1 evaluation for the permutation witness. -/
def ev2 : Evaluation :=
  { id := "e2", subjectId := "sub1", corte := .c1, name := "Tarea", percentage := 20 }

/-- Two grade rows with distinct (student, evaluation) keys. -/
def gradesTwo : List Grade :=
  [{ studentId := "s", evaluationId := "e1", score := some 10 },
   { studentId := "s", evaluationId := "e2", score := some 5 }]

/-- `gradesTwo` permuted. -/
def gradesTwoSwapped : List Grade :=
  [{ studentId := "s", evaluationId := "e2", score := some 5 },
   { studentId := "s", evaluationId := "e1", score := some 10 }]

/-!
Helper lemmas about the aggregation functions.
-/

/-- A fold accumulating `+ f a` equals the initial value plus the sum of the
mapped list. -/
theorem foldl_add_eq {α : Type} (f : α → ℚ) :
    ∀ (l : List α) (init : ℚ), l.foldl (fun t a => t + f a) init = init + (l.map f).sum
  | [], init => by simp
  | a :: l, init => by
    rw [List.foldl_cons, foldl_add_eq f l (init + f a), List.map_cons, List.sum_cons]
    ring

/-- Sums of mapped lists agree across permutations. -/
theorem sum_map_perm_eq {α : Type} (f : α → ℚ) {l₁ l₂ : List α} (h : l₁.Perm l₂) :
    (l₁.map f).sum = (l₂.map f).sum :=
  (h.map f).sum_eq

/-- The name-sorted corte list is a permutation of the corte filter. -/
theorem evaluationsByCorte_perm (evaluations : List Evaluation) (corte : Corte) :
    (evaluationsByCorte evaluations corte).Perm (evaluations.filter (fun ev => ev.corte == corte)) :=
  List.perm_insertionSort _ _

/-- The weighted fold over the name-sorted corte list equals the spec's sum. -/
theorem sorted_foldl_score_eq (evaluations : List Evaluation) (grades : List Grade)
    (studentId : String) (corte : Corte) :
    (evaluationsByCorte evaluations corte).foldl
      (fun total ev => total + scoreOf grades studentId ev.id * (ev.percentage / 100)) 0
      = weightedCorteSumSpec evaluations grades studentId corte := by
  rw [foldl_add_eq (fun ev : Evaluation => scoreOf grades studentId ev.id * (ev.percentage / 100)), zero_add]
  exact sum_map_perm_eq _ (evaluationsByCorte_perm evaluations corte)

/-- The percentage fold over the name-sorted corte list equals the corte's
total percentage. -/
theorem sorted_foldl_pct_eq (evaluations : List Evaluation) (corte : Corte) :
    (evaluationsByCorte evaluations corte).foldl (fun total ev => total + ev.percentage) 0
      = totalCortePercentage evaluations corte := by
  rw [foldl_add_eq (fun ev : Evaluation => ev.percentage), zero_add]
  exact sum_map_perm_eq _ (evaluationsByCorte_perm evaluations corte)

/-- `calculateCorteTotal` equals the spec's weighted corte sum. -/
theorem corteTotal_spec (evaluations : List Evaluation) (grades : List Grade)
    (studentId : String) (corte : Corte) :
    calculateCorteTotal evaluations grades studentId corte
      = weightedCorteSumSpec evaluations grades studentId corte := by
  unfold calculateCorteTotal
  by_cases h : evaluationsByCorte evaluations corte = []
  · have hf : evaluations.filter (fun ev => ev.corte == corte) = [] := by
      have hp := evaluationsByCorte_perm evaluations corte
      rw [h] at hp
      exact hp.nil_eq.symm
    simp [h, weightedCorteSumSpec, hf]
  · rw [if_neg (by simpa [List.isEmpty_iff] using h)]
    exact sorted_foldl_score_eq evaluations grades studentId corte

/-- The sum over a list of evaluations splits into the three corte filters. -/
theorem sum_map_corte_split (f : Evaluation → ℚ) :
    ∀ l : List Evaluation,
      (l.map f).sum
        = ((l.filter (fun ev => ev.corte == Corte.c1)).map f).sum
          + ((l.filter (fun ev => ev.corte == Corte.c2)).map f).sum
          + ((l.filter (fun ev => ev.corte == Corte.c3)).map f).sum
  | [] => by simp
  | a :: l => by
    have ih := sum_map_corte_split f l
    cases ha : a.corte <;> simp [List.filter_cons, ha, ih] <;> ring

/-- The CSV export's per-corte list is a permutation of the corte filter. -/
theorem csvCorteEvals_perm (evaluations : List Evaluation) (corte : Corte) :
    (csvCorteEvals evaluations corte).Perm (evaluations.filter (fun ev => ev.corte == corte)) :=
  (List.perm_insertionSort csvLe evaluations).filter _

/-- The CSV export's per-corte total equals the spec's weighted corte sum. -/
theorem csvCorteTotal_spec (evaluations : List Evaluation) (grades : List Grade)
    (studentId : String) (corte : Corte) :
    csvCorteTotal evaluations grades studentId corte
      = weightedCorteSumSpec evaluations grades studentId corte := by
  unfold csvCorteTotal
  rw [foldl_add_eq (fun ev : Evaluation => scoreOf grades studentId ev.id * (ev.percentage / 100)), zero_add]
  exact sum_map_perm_eq _ (csvCorteEvals_perm evaluations corte)

/-- Each CSV corte contribution (skipped when the corte is empty) equals the
spec's weighted corte sum. -/
theorem csv_corte_term (evaluations : List Evaluation) (grades : List Grade)
    (studentId : String) (corte : Corte) :
    (if (csvCorteEvals evaluations corte).isEmpty then (0 : ℚ)
     else csvCorteTotal evaluations grades studentId corte)
      = weightedCorteSumSpec evaluations grades studentId corte := by
  by_cases h : csvCorteEvals evaluations corte = []
  · have hf : evaluations.filter (fun ev => ev.corte == corte) = [] := by
      have hp := csvCorteEvals_perm evaluations corte
      rw [h] at hp
      exact hp.nil_eq.symm
    simp [h, weightedCorteSumSpec, hf]
  · rw [if_neg (by simpa [List.isEmpty_iff] using h)]
    exact csvCorteTotal_spec evaluations grades studentId corte

/-- C4: for every student, corte, and snapshot, the grade table's
`calculateCorteTotal` (= `calculateWeightedCorteSum`) equals the sum over the
corte's evaluations of `score × (percentage / 100)`, and an absent grade row or
a `null` score contributes 0. -/
theorem weighted_corte_sum_spec_eq (evaluations : List Evaluation) (grades : List Grade)
    (studentId : String) (corte : Corte) :
    calculateCorteTotal evaluations grades studentId corte
      = weightedCorteSumSpec evaluations grades studentId corte
    ∧ calculateWeightedCorteSum evaluations grades studentId corte
      = weightedCorteSumSpec evaluations grades studentId corte
    ∧ (∀ evaluationId, getGrade grades studentId evaluationId = none →
        scoreOf grades studentId evaluationId = 0)
    ∧ (∀ evaluationId g, getGrade grades studentId evaluationId = some g → g.score = none →
        scoreOf grades studentId evaluationId = 0) := by
  refine ⟨corteTotal_spec .., corteTotal_spec .., ?_, ?_⟩
  · intro evaluationId h
    simp [scoreOf, h]
  · intro evaluationId g h hs
    simp [scoreOf, h, hs]

/-- C4 witness: the spec's scenario — one corte-1 evaluation "Quiz" at 30%,
score 15 — has weighted corte sum 4.5, and a `null` score contributes 0. -/
theorem weighted_corte_sum_spec_eq_witness :
    calculateCorteTotal [quiz30] gradesQuiz15 "s" Corte.c1
      = weightedCorteSumSpec [quiz30] gradesQuiz15 "s" Corte.c1
    ∧ scoreOf gradesNull "a1" "e1" = 0 := by
  refine ⟨(weighted_corte_sum_spec_eq [quiz30] gradesQuiz15 "s" Corte.c1).1, ?_⟩
  exact (weighted_corte_sum_spec_eq [] gradesNull "a1" Corte.c1).2.2.2 "e1"
    { studentId := "a1", evaluationId := "e1", score := none } (by decide) rfl

/-- C1: the final grade is the sum over the three cortes of the weighted corte
sum, and the grade table, the general report, and the CSV export all compute
the same number. -/
theorem final_grade_consistency (evaluations : List Evaluation) (grades : List Grade)
    (studentId : String) :
    finalGrade evaluations grades studentId
      = calculateWeightedCorteSum evaluations grades studentId Corte.c1
        + calculateWeightedCorteSum evaluations grades studentId Corte.c2
        + calculateWeightedCorteSum evaluations grades studentId Corte.c3
    ∧ finalGrade evaluations grades studentId = reportFinalGrade evaluations grades studentId
    ∧ finalGrade evaluations grades studentId = csvFinalGrade evaluations grades studentId := by
  have hfg : finalGrade evaluations grades studentId
      = weightedCorteSumSpec evaluations grades studentId Corte.c1
        + weightedCorteSumSpec evaluations grades studentId Corte.c2
        + weightedCorteSumSpec evaluations grades studentId Corte.c3 := by
    unfold finalGrade
    rw [corteTotal_spec, corteTotal_spec, corteTotal_spec]
  refine ⟨rfl, ?_, ?_⟩
  · rw [hfg]
    unfold reportFinalGrade
    rw [foldl_add_eq (fun ev : Evaluation => scoreOf grades studentId ev.id * (ev.percentage / 100)), zero_add]
    rw [sum_map_corte_split]
    rfl
  · rw [hfg]
    unfold csvFinalGrade
    simp only [List.foldl_cons, List.foldl_nil]
    have step : ∀ (fg : ℚ) (corte : Corte),
        (if (csvCorteEvals evaluations corte).isEmpty then fg
         else fg + csvCorteTotal evaluations grades studentId corte)
          = fg + weightedCorteSumSpec evaluations grades studentId corte := by
      intro fg corte
      rw [← csv_corte_term evaluations grades studentId corte]
      by_cases h : (csvCorteEvals evaluations corte).isEmpty <;> simp [h]
    rw [step, step, step]
    ring

/-- C2: whenever the corte's percentages sum to `P > 0`, every normalized
corte grade in the source (grade-table variant, email-by-corte, report view)
equals `weightedCorteSum / (P / 100)`; when the corte has no evaluations or
`P = 0`, each returns exactly 0 (no division is attempted). -/
theorem normalized_corte_grade_spec (evaluations : List Evaluation) (grades : List Grade)
    (studentId : String) (corte : Corte) :
    (0 < totalCortePercentage evaluations corte →
      calculateNormalizedCorteGrade evaluations grades studentId corte
        = calculateWeightedCorteSum evaluations grades studentId corte
          / (totalCortePercentage evaluations corte / 100)
      ∧ emailCorteNormalizedGrade evaluations grades studentId corte
        = calculateWeightedCorteSum evaluations grades studentId corte
          / (totalCortePercentage evaluations corte / 100)
      ∧ reportNormalizedScore evaluations grades studentId corte
        = calculateWeightedCorteSum evaluations grades studentId corte
          / (totalCortePercentage evaluations corte / 100))
    ∧ (totalCortePercentage evaluations corte = 0 →
      calculateNormalizedCorteGrade evaluations grades studentId corte = 0
      ∧ emailCorteNormalizedGrade evaluations grades studentId corte = 0
      ∧ reportNormalizedScore evaluations grades studentId corte = 0) := by
  have hpct := sorted_foldl_pct_eq evaluations corte
  have hrep : (evaluations.filter (fun ev => ev.corte == corte)).foldl
      (fun p ev => p + ev.percentage) 0 = totalCortePercentage evaluations corte := by
    rw [foldl_add_eq (fun ev : Evaluation => ev.percentage), zero_add]
    rfl
  have hrepscore : (evaluations.filter (fun ev => ev.corte == corte)).foldl
      (fun total ev => total + scoreOf grades studentId ev.id * (ev.percentage / 100)) 0
      = calculateWeightedCorteSum evaluations grades studentId corte := by
    rw [foldl_add_eq (fun ev : Evaluation => scoreOf grades studentId ev.id * (ev.percentage / 100)),
      zero_add, calculateWeightedCorteSum, corteTotal_spec]
    rfl
  constructor
  · intro hP
    have hne : evaluationsByCorte evaluations corte ≠ [] := by
      intro h
      have : totalCortePercentage evaluations corte = 0 := by
        rw [← hpct, h]
        rfl
      rw [this] at hP
      exact lt_irrefl 0 hP
    refine ⟨?_, ?_, ?_⟩
    · simp only [calculateNormalizedCorteGrade]
      rw [if_neg (by simpa [List.isEmpty_iff] using hne), hpct,
        if_neg (by intro h; rw [h] at hP; exact lt_irrefl 0 hP)]
    · simp only [emailCorteNormalizedGrade]
      rw [hpct, if_pos hP, sorted_foldl_score_eq, ← corteTotal_spec]
      rfl
    · simp only [reportNormalizedScore]
      rw [hrep, if_pos hP, hrepscore]
  · intro hP
    refine ⟨?_, ?_, ?_⟩
    · simp only [calculateNormalizedCorteGrade]
      by_cases h : evaluationsByCorte evaluations corte = []
      · rw [if_pos (by simpa [List.isEmpty_iff] using h)]
      · rw [if_neg (by simpa [List.isEmpty_iff] using h), hpct, if_pos hP]
    · simp only [emailCorteNormalizedGrade]
      rw [hpct, if_neg (by rw [hP]; exact lt_irrefl 0)]
    · simp only [reportNormalizedScore]
      rw [hrep, if_neg (by rw [hP]; exact lt_irrefl 0)]

/-- C1 witness: in the spec's Quiz scenario the three consumers agree. -/
theorem final_grade_consistency_witness :
    finalGrade [quiz30] gradesQuiz15 "s" = reportFinalGrade [quiz30] gradesQuiz15 "s"
    ∧ finalGrade [quiz30] gradesQuiz15 "s" = csvFinalGrade [quiz30] gradesQuiz15 "s" :=
  ⟨(final_grade_consistency [quiz30] gradesQuiz15 "s").2.1,
    (final_grade_consistency [quiz30] gradesQuiz15 "s").2.2⟩

/-- C2 witness: the spec's scenario — one corte-1 evaluation "Quiz" at 30%,
one student with score 15 — has `P = 30 > 0` and normalized corte grade
`4.5 / 0.3 = 15`. -/
theorem normalized_corte_grade_spec_witness :
    0 < totalCortePercentage [quiz30] Corte.c1
    ∧ calculateNormalizedCorteGrade [quiz30] gradesQuiz15 "s" Corte.c1
      = calculateWeightedCorteSum [quiz30] gradesQuiz15 "s" Corte.c1
        / (totalCortePercentage [quiz30] Corte.c1 / 100)
    ∧ calculateNormalizedCorteGrade [quiz30] gradesQuiz15 "s" Corte.c1 = 15 := by
  have hP : 0 < totalCortePercentage [quiz30] Corte.c1 := by decide
  exact ⟨hP, ((normalized_corte_grade_spec [quiz30] gradesQuiz15 "s" Corte.c1).1 hP).1,
    by decide⟩

/-- The code's if-chain puts a score of the allowed range into the spec's
bucket it selects. -/
theorem bucketIndex_mem (s : ℚ) (h0 : 0 ≤ s) (h20 : s ≤ 20) :
    specBucketRange (bucketIndex s) s := by
  unfold bucketIndex
  split_ifs with h4 h8 h12 h16 <;> simp only [specBucketRange] <;> constructor <;> linarith

/-- The spec's five bucket ranges are pairwise disjoint. -/
theorem bucket_unique (s : ℚ) (i j : Fin 5) (hi : specBucketRange i s)
    (hj : specBucketRange j s) : i = j := by
  fin_cases i <;> fin_cases j <;> simp_all only [specBucketRange] <;>
    first
    | rfl
    | (exfalso; linarith [hi.1, hi.2, hj.1, hj.2])

/-- One counting step adds exactly 1 to the bucket total. -/
theorem addBucket_sum (d : Fin 5 → Nat) (s : ℚ) :
    addBucket d s 0 + addBucket d s 1 + addBucket d s 2 + addBucket d s 3 + addBucket d s 4
      = d 0 + d 1 + d 2 + d 3 + d 4 + 1 := by
  unfold addBucket
  generalize bucketIndex s = j
  fin_cases j <;> simp <;> omega

/-- The counting loop adds the number of scores to the bucket total. -/
theorem foldl_addBucket_sum :
    ∀ (l : List ℚ) (d : Fin 5 → Nat),
      (l.foldl addBucket d) 0 + (l.foldl addBucket d) 1 + (l.foldl addBucket d) 2
        + (l.foldl addBucket d) 3 + (l.foldl addBucket d) 4
        = d 0 + d 1 + d 2 + d 3 + d 4 + l.length
  | [], d => by simp
  | s :: l, d => by
    rw [List.foldl_cons, foldl_addBucket_sum l (addBucket d s), addBucket_sum,
      List.length_cons]
    omega

/-- C8: on scores in [0,20] the code's if-chain lands each score in exactly
one of the spec's ranges [0,4), [4,8), [8,12), [12,16), [16,20] — the one it
increments — so the five bucket counts sum to the number of scores. -/
theorem distribution_buckets_partition :
    (∀ s : ℚ, 0 ≤ s → s ≤ 20 → ∀ i : Fin 5, (specBucketRange i s ↔ i = bucketIndex s))
    ∧ (∀ scores : List ℚ, (∀ s ∈ scores, 0 ≤ s ∧ s ≤ 20) →
        (distributionList scores).sum = scores.length) := by
  constructor
  · intro s h0 h20 i
    constructor
    · intro hi
      exact bucket_unique s i (bucketIndex s) hi (bucketIndex_mem s h0 h20)
    · intro hi
      rw [hi]
      exact bucketIndex_mem s h0 h20
  · intro scores _
    simp only [distributionList, distributionOf, List.sum_cons, List.sum_nil]
    have := foldl_addBucket_sum scores (fun _ => 0)
    omega

/-- C8 witness: the score 5 lies exactly in the bucket the code selects, and a
one-score list has bucket counts summing to 1. -/
theorem distribution_buckets_partition_witness :
    specBucketRange (bucketIndex (5 : ℚ)) 5 ∧ (distributionList [(5 : ℚ)]).sum = 1 := by
  constructor
  · exact (distribution_buckets_partition.1 5 (by norm_num) (by norm_num)
      (bucketIndex (5 : ℚ))).mpr rfl
  · have h := distribution_buckets_partition.2 [(5 : ℚ)] (by
      intro s hs
      rw [List.mem_singleton] at hs
      subst hs
      norm_num)
    simpa using h

/-- C9: `calculateStats` on the empty score list returns the all-zero record —
average, extremes, pass counts, pass rate all 0, distribution `[0,0,0,0,0]`,
empty passed and failed lists — with no division performed. -/
theorem stats_empty_input :
    calculateStats [] 10
      = { average := 0, highest := 0, lowest := 0, passed := 0, failed := 0,
          passRate := 0, distribution := [0, 0, 0, 0, 0],
          approvedStudents := [], failedStudents := [] } := rfl

/-!
Validator lemmas.
-/

/-- `totalPercentage` as a mapped sum. -/
theorem totalPercentage_eq_sum (evaluations : List Evaluation) :
    totalPercentage evaluations = (evaluations.map (·.percentage)).sum := by
  unfold totalPercentage
  rw [foldl_add_eq (fun ev : Evaluation => ev.percentage), zero_add]

/-- A fold that skips the elements satisfying `P` sums the other elements. -/
theorem foldl_skip_eq {α : Type} (P : α → Bool) (f : α → ℚ) :
    ∀ (l : List α) (init : ℚ),
      l.foldl (fun acc a => if P a then acc else acc + f a) init
        = init + ((l.filter (fun a => !P a)).map f).sum
  | [], init => by simp
  | a :: l, init => by
    rw [List.foldl_cons]
    by_cases h : P a
    · rw [if_pos h, foldl_skip_eq P f l init, List.filter_cons,
        if_neg (by simp [h])]
    · rw [if_neg h, foldl_skip_eq P f l (init + f a), List.filter_cons,
        if_pos (by simp [h]), List.map_cons, List.sum_cons]
      ring

/-- In a list with pairwise-distinct ids containing `e`, dropping the elements
with `e`'s id removes exactly `f e` from the mapped sum. -/
theorem sum_filter_ne_of_unique (f : Evaluation → ℚ) :
    ∀ {l : List Evaluation} {e : Evaluation},
      l.Pairwise (fun a b => a.id ≠ b.id) → e ∈ l →
      ((l.filter (fun ev => !(e.id == ev.id))).map f).sum = (l.map f).sum - f e := by
  intro l
  induction l with
  | nil => intro e _ he; cases he
  | cons a t ih =>
    intro e hpw hmem
    rw [List.pairwise_cons] at hpw
    rcases List.mem_cons.mp hmem with rfl | hmem
    · have hkeep : t.filter (fun ev => !(e.id == ev.id)) = t := by
        apply List.filter_eq_self.mpr
        intro b hb
        simp [hpw.1 b hb]
      rw [List.filter_cons, if_neg (by simp), hkeep, List.map_cons, List.sum_cons]
      ring
    · have hne : e.id ≠ a.id := fun h => hpw.1 e hmem h.symm
      rw [List.filter_cons, if_pos (by simp [hne]), List.map_cons, List.sum_cons,
        ih hpw.2 hmem, List.map_cons, List.sum_cons]
      ring

/-- Self-exclusion of the edit flow: for an evaluation with a unique id, the
corte budget base excludes exactly its own percentage. -/
theorem percentageForCorte_eq {evaluations : List Evaluation} {e : Evaluation}
    (hpw : evaluations.Pairwise (fun a b => a.id ≠ b.id)) (hmem : e ∈ evaluations) :
    percentageForCorte evaluations (some e) e.corte
      = totalCortePercentage evaluations e.corte - e.percentage := by
  unfold percentageForCorte
  rw [foldl_skip_eq (fun ev => e.id == ev.id) (fun ev : Evaluation => ev.percentage),
    zero_add]
  have hpwf : (evaluations.filter (fun ev => ev.corte == e.corte)).Pairwise
      (fun a b => a.id ≠ b.id) := hpw.filter _
  have hmemf : e ∈ evaluations.filter (fun ev => ev.corte == e.corte) := by
    rw [List.mem_filter]
    exact ⟨hmem, by simp⟩
  exact sum_filter_ne_of_unique (fun ev : Evaluation => ev.percentage) hpwf hmemf

/-- C3 counterexample: with a single corte-1 evaluation at 20% (cap 30%) being
edited, a proposed 35% is rejected with the corte-budget error, but the error
reports 30% available (the edited evaluation's own 20% is excluded by
self-exclusion), not the 10% the claim states. -/
theorem edit_remaining_counterexample :
    validateSaveEvaluation [e20] (some e20) "Parcial 1" (some 35) Corte.c1
      = .error (.corteBudget Corte.c1 30)
    ∧ validateSaveEvaluation [e20] (some e20) "Parcial 1" (some 35) Corte.c1
      ≠ .error (.corteBudget Corte.c1 10) := by
  decide

/-- C3 (amended): editing the 20% corte-1 evaluation to 25% succeeds; editing
it to 35% fails with the corte-budget error reporting 30% remaining; and, in
general, re-validating an evaluation of a well-formed subject with its own
unchanged data never fails a budget check. -/
theorem edit_self_exclusion_budget :
    validateSaveEvaluation [e20] (some e20) "Parcial 1" (some 25) Corte.c1 = .ok ()
    ∧ validateSaveEvaluation [e20] (some e20) "Parcial 1" (some 35) Corte.c1
      = .error (.corteBudget Corte.c1 30)
    ∧ ∀ (evaluations : List Evaluation) (e : Evaluation),
        evaluations.Pairwise (fun a b => a.id ≠ b.id) → e ∈ evaluations →
        nameMissing e.name = false → 0 < e.percentage →
        totalCortePercentage evaluations e.corte ≤ CORTE_PERCENTAGES e.corte →
        totalPercentage evaluations ≤ 100 →
        validateSaveEvaluation evaluations (some e) e.name (some e.percentage) e.corte
          = .ok () := by
  refine ⟨by decide, by decide, ?_⟩
  intro evaluations e hpw hmem hname hpos hcorte htot
  have hpfc := percentageForCorte_eq hpw hmem
  simp only [validateSaveEvaluation]
  rw [if_neg (by simp [hname]), if_neg (not_le.mpr hpos), if_neg (by
      rw [hpfc]
      have hh : totalCortePercentage evaluations e.corte - e.percentage + e.percentage
          = totalCortePercentage evaluations e.corte := by ring
      rw [hh]
      exact not_lt.mpr hcorte),
    if_neg (by
      have hh : currentTotalWithoutEdited evaluations (some e) + e.percentage
          = totalPercentage evaluations := by
        simp only [currentTotalWithoutEdited]
        ring
      rw [hh]
      exact not_lt.mpr htot)]

/-- C3 witness: re-submitting the 20% evaluation unchanged passes validation. -/
theorem edit_self_exclusion_budget_witness :
    validateSaveEvaluation [e20] (some e20) e20.name (some e20.percentage) e20.corte
      = .ok () :=
  edit_self_exclusion_budget.2.2 [e20] e20 (by simp) (by simp) (by decide) (by decide)
    (by decide) (by decide)

/-- C6 counterexample: a proposed 150% on an empty subject satisfies the
claim's total-budget condition (0 + 150 > 100), yet validation fails with the
corte-budget error (checked first), not the total-budget error the claim's
"exactly when" demands. -/
theorem total_budget_order_counterexample :
    validateSaveEvaluation [] none "Quiz" (some 150) Corte.c1
      = .error (.corteBudget Corte.c1 30)
    ∧ 100 < currentTotalWithoutEdited [] none + 150
    ∧ validateSaveEvaluation [] none "Quiz" (some 150) Corte.c1
      ≠ .error (.totalBudget (100 - currentTotalWithoutEdited [] none)) := by
  decide

/-- C6 (amended): validation fails with the total-budget error exactly when
the earlier checks pass (valid name, positive percentage, corte budget
respected) and the total excluding the edited evaluation plus the proposed
percentage exceeds 100; the error reports 100 minus that excluded total, and
for a unique-id edited evaluation the excluded total is precisely the sum over
the other evaluations (no double-counting). -/
theorem total_budget_characterization :
    (∀ (evaluations : List Evaluation) (editing : Option Evaluation) (name : String)
        (pOpt : Option ℚ) (corte : Corte) (r : ℚ),
      validateSaveEvaluation evaluations editing name pOpt corte = .error (.totalBudget r)
      ↔ ∃ p, pOpt = some p ∧ nameMissing name = false ∧ 0 < p
          ∧ percentageForCorte evaluations editing corte + p ≤ CORTE_PERCENTAGES corte
          ∧ 100 < currentTotalWithoutEdited evaluations editing + p
          ∧ r = 100 - currentTotalWithoutEdited evaluations editing)
    ∧ (∀ (evaluations : List Evaluation) (e : Evaluation),
        evaluations.Pairwise (fun a b => a.id ≠ b.id) → e ∈ evaluations →
        currentTotalWithoutEdited evaluations (some e)
          = ((evaluations.filter (fun ev => !(e.id == ev.id))).map (·.percentage)).sum) := by
  constructor
  · intro evaluations editing name pOpt corte r
    cases pOpt with
    | none => simp [validateSaveEvaluation]
    | some p =>
      simp only [validateSaveEvaluation]
      constructor
      · intro h
        split_ifs at h with h1 h2 h3 h4 <;> simp at h
        exact ⟨p, rfl, by simpa using h1, not_le.mp h2, not_lt.mp h3, h4, h.symm⟩
      · rintro ⟨p', hp', hname, hpos, hcorte, htot, hr⟩
        rw [Option.some.injEq] at hp'
        subst hp'
        rw [if_neg (by simp [hname]), if_neg (not_le.mpr hpos),
          if_neg (not_lt.mpr hcorte), if_pos htot, hr]
  · intro evaluations e hpw hmem
    have hsum := sum_filter_ne_of_unique (fun ev : Evaluation => ev.percentage) hpw hmem
    simp only [currentTotalWithoutEdited]
    rw [totalPercentage_eq_sum, hsum]

/-- C6 witness: a full subject (one evaluation at 100%) rejects a 35% corte-3
addition with the total-budget error reporting 0% available, and the edit
exclusion of a unique-id evaluation equals the sum over the others. -/
theorem total_budget_characterization_witness :
    validateSaveEvaluation [evFull100] none "Quiz" (some 35) Corte.c3
      = .error (.totalBudget 0)
    ∧ currentTotalWithoutEdited [e20] (some e20)
      = (([e20].filter (fun ev => !(e20.id == ev.id))).map (·.percentage)).sum := by
  constructor
  · exact (total_budget_characterization.1 [evFull100] none "Quiz" (some 35) Corte.c3 0).mpr
      ⟨35, rfl, by decide, by decide, by decide, by decide, by decide⟩
  · exact total_budget_characterization.2 [e20] e20 (by simp) (by simp)

/-- C7: whenever any validation check rejects the proposed evaluation, the
save flow performs no create and no update — the resulting evaluation list is
exactly the one before the attempt. -/
theorem rejected_save_preserves_evaluations :
    ∀ (evaluations : List Evaluation) (editing : Option Evaluation) (name : String)
      (pOpt : Option ℚ) (corte : Corte) (subjectId newId : String) (err : SaveError),
      (handleSaveEvaluationRun evaluations editing name pOpt corte subjectId newId).2 = some err →
      (handleSaveEvaluationRun evaluations editing name pOpt corte subjectId newId).1
        = evaluations := by
  intro evaluations editing name pOpt corte subjectId newId err h
  cases pOpt with
  | none => rfl
  | some p =>
    simp only [handleSaveEvaluationRun] at h ⊢
    split_ifs at h ⊢ <;> try rfl
    cases editing <;> simp_all

/-- C7 witness: a rejected 200% proposal (corte budget) leaves the evaluation
set untouched. -/
theorem rejected_save_preserves_evaluations_witness :
    (handleSaveEvaluationRun [e20] none "Quiz" (some 200) Corte.c1 "sub1" "e9").1 = [e20] :=
  rejected_save_preserves_evaluations [e20] none "Quiz" (some 200) Corte.c1 "sub1" "e9"
    (.corteBudget Corte.c1 10) (by decide)

/-- C5 counterexample: two snapshots identical except that Ana's grade is
`null` in one and an explicit 0 in the other produce the very same CSV row —
the CSV export renders both as "0.00", so not every export distinguishes them. -/
theorem csv_null_vs_zero_counterexample :
    gradesNull ≠ gradesZero
    ∧ csvStudentRow [quiz30] gradesNull ana = csvStudentRow [quiz30] gradesZero ana := by
  decide

/-- C5 (amended): the email-by-evaluation body and the grade-table cell render
a missing score ("N/P", empty cell) differently from an explicit 0, but the
CSV export renders both as "0.00" — its rows coincide. -/
theorem null_score_rendering :
    (∀ name : String, emailLine name none ≠ emailLine name (some 0))
    ∧ gradeCellValue none ≠ gradeCellValue (some 0)
    ∧ emailByEvaluationBody [ana] gradesNull quiz30
      ≠ emailByEvaluationBody [ana] gradesZero quiz30
    ∧ csvScoreCell none = csvScoreCell (some 0)
    ∧ csvStudentRow [quiz30] gradesNull ana = csvStudentRow [quiz30] gradesZero ana := by
  refine ⟨?_, by decide, by decide, by decide, by decide⟩
  intro name h
  have hc : emailScoreCell (some 0) = "0" := by decide
  have hn : emailScoreCell none = "N/P" := rfl
  unfold emailLine at h
  rw [hc, hn] at h
  have h2 := congrArg String.data h
  simp only [String.data_append, List.append_assoc] at h2
  have h3 := List.append_cancel_left h2
  exact absurd h3 (by decide)

/-- C5 witness: a concrete email line distinguishes "N/P" from "0". -/
theorem null_score_rendering_witness :
    emailLine "Ana" none ≠ emailLine "Ana" (some 0) :=
  null_score_rendering.1 "Ana"

/-!
Grade-lookup order semantics.
-/

/-- `find?` returns the same result on permuted lists when all matching
elements are equal. -/
theorem find?_perm_of_unique {α : Type} (p : α → Bool) {l₁ l₂ : List α}
    (hp : l₁.Perm l₂) (hu : ∀ a ∈ l₁, ∀ b ∈ l₁, p a → p b → a = b) :
    l₁.find? p = l₂.find? p := by
  cases h₁ : l₁.find? p with
  | none =>
    cases h₂ : l₂.find? p with
    | none => rfl
    | some b =>
      have hb := List.find?_some h₂
      have hbm : b ∈ l₁ := hp.mem_iff.mpr (List.mem_of_find?_eq_some h₂)
      exact absurd hb (List.find?_eq_none.mp h₁ b hbm)
  | some a =>
    have ha := List.find?_some h₁
    have ham := List.mem_of_find?_eq_some h₁
    cases h₂ : l₂.find? p with
    | none =>
      exact absurd ha (List.find?_eq_none.mp h₂ a (hp.mem_iff.mp ham))
    | some b =>
      have hb := List.find?_some h₂
      have hbm : b ∈ l₁ := hp.mem_iff.mpr (List.mem_of_find?_eq_some h₂)
      rw [hu a ham b hbm ha hb]

/-- The grade lookup is permutation-invariant when no (student, evaluation)
pair repeats. -/
theorem getGrade_perm {grades grades' : List Grade} (hp : grades.Perm grades')
    (hu : grades.Pairwise
      (fun a b => ¬(a.studentId = b.studentId ∧ a.evaluationId = b.evaluationId)))
    (studentId evaluationId : String) :
    getGrade grades studentId evaluationId = getGrade grades' studentId evaluationId := by
  apply find?_perm_of_unique _ hp
  intro a ha b hb hpa hpb
  simp only [Bool.and_eq_true, beq_iff_eq] at hpa hpb
  by_cases hab : a = b
  · exact hab
  · exfalso
    have hsymm : Symmetric
        (fun a b : Grade => ¬(a.studentId = b.studentId ∧ a.evaluationId = b.evaluationId)) := by
      intro x y hxy hk
      exact hxy ⟨hk.1.symm, hk.2.symm⟩
    exact hu.forall hsymm ha hb hab ⟨hpa.1.trans hpb.1.symm, hpa.2.trans hpb.2.symm⟩

/-- C10: every aggregation reads grades only through the first-match lookup,
so on duplicate-free snapshots the corte total, the normalized corte grade and
the final grade are invariant under any permutation of the grades list, while
duplicate rows for one (student, evaluation) pair make the result depend on
list order — only the first entry counts. -/
theorem grade_lookup_order_semantics :
    (∀ (grades grades' : List Grade) (evaluations : List Evaluation)
        (studentId : String) (corte : Corte),
      grades.Perm grades' →
      grades.Pairwise
        (fun a b => ¬(a.studentId = b.studentId ∧ a.evaluationId = b.evaluationId)) →
      calculateCorteTotal evaluations grades studentId corte
        = calculateCorteTotal evaluations grades' studentId corte
      ∧ calculateNormalizedCorteGrade evaluations grades studentId corte
        = calculateNormalizedCorteGrade evaluations grades' studentId corte
      ∧ finalGrade evaluations grades studentId = finalGrade evaluations grades' studentId)
    ∧ gradesDup.Perm gradesDupRev
    ∧ calculateCorteTotal [evFull100] gradesDup "s" Corte.c1
      ≠ calculateCorteTotal [evFull100] gradesDupRev "s" Corte.c1
    ∧ getGrade gradesDup "s" "e1"
      = some { studentId := "s", evaluationId := "e1", score := some 10 } := by
  refine ⟨?_, by decide, by decide, by decide⟩
  intro grades grades' evaluations studentId corte hp hu
  have hg := getGrade_perm hp hu studentId
  have hfun : (fun ev : Evaluation => scoreOf grades studentId ev.id * (ev.percentage / 100))
      = fun ev : Evaluation => scoreOf grades' studentId ev.id * (ev.percentage / 100) := by
    funext ev
    unfold scoreOf
    rw [hg]
  have hCT : ∀ c, calculateCorteTotal evaluations grades studentId c
      = calculateCorteTotal evaluations grades' studentId c := by
    intro c
    rw [corteTotal_spec, corteTotal_spec]
    unfold weightedCorteSumSpec
    rw [hfun]
  refine ⟨hCT corte, ?_, ?_⟩
  · simp only [calculateNormalizedCorteGrade, calculateWeightedCorteSum, hCT corte]
  · unfold finalGrade
    rw [hCT Corte.c1, hCT Corte.c2, hCT Corte.c3]

/-- C10 witness: swapping two duplicate-free grade rows leaves the corte total
unchanged. -/
theorem grade_lookup_order_semantics_witness :
    calculateCorteTotal [evFull100, ev2] gradesTwo "s" Corte.c1
      = calculateCorteTotal [evFull100, ev2] gradesTwoSwapped "s" Corte.c1 :=
  (grade_lookup_order_semantics.1 gradesTwo gradesTwoSwapped [evFull100, ev2] "s" Corte.c1
    (by decide) (by decide)).1

end Gradebook
